import Mathlib

/-!
Verification of the configuration core of the zed-f9p-gnss-viewer
repository: `src/config/constants.py` (static lookup tables) and
`src/config/settings.py` (dataclass-based settings assembled from
environment variables).

The embedding is shallow.  The process environment is a partial map from
variable name to string; `os.getenv(name, default)` is total lookup with
a fallback.  Python's numeric constructors `int(...)` and `float(...)`
are modelled as Option-returning parsers over ASCII input (the only kind
the repository's defaults and the tested inputs use); `float` values are
represented exactly, as rationals extended with infinities and NaN, since
every literal the module parses is decimal.  A failed coercion in a class
body and the dataclass decorator's rejection of a mutable (list-valued)
field default are both modelled as `Except` errors, in the order Python
raises them: class bodies run top to bottom, and the decorator inspects
the already-evaluated defaults afterwards, rejecting the first field
whose default is a list.
-/

/-- A process-environment snapshot: variable name to optional value. -/
def Env : Type := String → Option String

/-- Python `os.getenv(name, dflt)`: the variable's value, or the fallback. -/
def getenv (env : Env) (name dflt : String) : String :=
  (env name).getD dflt

/-- Errors that can escape the settings module while it is being imported. -/
inductive PyErr where
  /-- ValueError raised by `int(raw)` on a malformed string. -/
  | intParse (raw : String) : PyErr
  /-- ValueError raised by `float(raw)` on a malformed string. -/
  | floatParse (raw : String) : PyErr
  /-- ValueError raised by the dataclass decorator: mutable default for a field. -/
  | mutableDefault (fieldName : String) : PyErr
  deriving DecidableEq, Repr

/-- Whether an error is a numeric-coercion (parse) failure. -/
def PyErr.isParseError : PyErr → Bool
  | .intParse _ => true
  | .floatParse _ => true
  | .mutableDefault _ => false

/-- Python `str.strip()` on ASCII input: drop surrounding whitespace. -/
def pyStrip (s : String) : List Char :=
  ((s.toList.dropWhile Char.isWhitespace).reverse.dropWhile Char.isWhitespace).reverse

/-- Value of an ASCII decimal digit. -/
def digitVal (c : Char) : Nat := c.toNat - 48

/-- No two consecutive underscores in a digit group (Python numeric grammar). -/
def noDoubleUnderscore : List Char → Bool
  | [] => true
  | [_] => true
  | a :: b :: rest => !(a == '_' && b == '_') && noDoubleUnderscore (b :: rest)

/-- A valid Python digit group: nonempty digits, underscores only between digits. -/
def validDigitSeq (cs : List Char) : Bool :=
  !cs.isEmpty &&
  cs.headD ' ' != '_' &&
  cs.getLastD ' ' != '_' &&
  cs.all (fun c => c.isDigit || c == '_') &&
  noDoubleUnderscore cs

/-- Numeric value of a digit list (underscores already removed). -/
def natOfDigits (cs : List Char) : Nat :=
  cs.foldl (fun acc c => acc * 10 + digitVal c) 0

/-- Parse an unsigned Python integer digit group. -/
def pyIntDigits (cs : List Char) : Option Nat :=
  if validDigitSeq cs then some (natOfDigits (cs.filter (fun c => c != '_'))) else none

/-- Python `int(s)` on ASCII base-10 input: strip, optional sign, digit group. -/
def pyInt (s : String) : Option Int :=
  match pyStrip s with
  | '+' :: rest => (pyIntDigits rest).map Int.ofNat
  | '-' :: rest => (pyIntDigits rest).map (fun n => -(n : Int))
  | cs => (pyIntDigits cs).map Int.ofNat

/-- A Python float value: exact rational for finite decimal input, plus the
infinities and NaN that `float(...)` also accepts. -/
inductive PyFloat where
  | finite (q : Rat) : PyFloat
  | inf : PyFloat
  | neginf : PyFloat
  | nan : PyFloat
  deriving DecidableEq, Repr

/-- Split a char list at the first char satisfying the test; the second
component is the remainder after the split char, when one was found. -/
def splitOnceBy (p : Char → Bool) : List Char → List Char × Option (List Char)
  | [] => ([], none)
  | c :: rest =>
    if p c then ([], some rest)
    else
      let r := splitOnceBy p rest
      (c :: r.1, r.2)

/-- Exact value of a parsed decimal: sign, integer part, fraction digits
and exponent, as the rational sgn·(ip.fd)·10^e. -/
def ratOfParts (sgn : Int) (ip : Nat) (fd : List Char) (e : Int) : Rat :=
  let fl := fd.length
  let m : Int := sgn * (ip * 10 ^ fl + natOfDigits fd)
  if 0 ≤ e then mkRat (m * 10 ^ e.toNat) (10 ^ fl)
  else mkRat m (10 ^ fl * 10 ^ (-e).toNat)

/-- Parse the exponent suffix of a Python float literal (after e or E). -/
def pyFloatExp (cs : List Char) : Option Int :=
  match cs with
  | '+' :: rest => (pyIntDigits rest).map Int.ofNat
  | '-' :: rest => (pyIntDigits rest).map (fun n => -(n : Int))
  | rest => (pyIntDigits rest).map Int.ofNat

/-- Parse a Python float number (sign already removed, passed as sgn):
digits, optional point and fraction digits, optional exponent; at least
one mantissa digit. -/
def pyFloatNumber (sgn : Int) (cs : List Char) : Option Rat :=
  let mant := splitOnceBy (fun c => c == 'e' || c == 'E') cs
  let eVal : Option Int :=
    match mant.2 with
    | none => some 0
    | some ec => pyFloatExp ec
  match eVal with
  | none => none
  | some e =>
    let parts := splitOnceBy (fun c => c == '.') mant.1
    match parts.2 with
    | none =>
      if validDigitSeq parts.1 then
        some (ratOfParts sgn (natOfDigits (parts.1.filter (fun c => c != '_'))) [] e)
      else none
    | some fp =>
      if parts.1.isEmpty && fp.isEmpty then none
      else if (parts.1.isEmpty || validDigitSeq parts.1) &&
              (fp.isEmpty || validDigitSeq fp) then
        some (ratOfParts sgn (natOfDigits (parts.1.filter (fun c => c != '_')))
          (fp.filter (fun c => c != '_')) e)
      else none

/-- Python `float(s)` on ASCII input: strip, optional sign, then either a
decimal number or the case-insensitive words inf, infinity, nan. -/
def pyFloat (s : String) : Option PyFloat :=
  let t := pyStrip s
  let sgn : Int := match t with
    | '-' :: _ => -1
    | _ => 1
  let body := match t with
    | '+' :: rest => rest
    | '-' :: rest => rest
    | cs => cs
  let lowerBody := body.map Char.toLower
  if lowerBody = "inf".toList || lowerBody = "infinity".toList then
    some (if sgn = 1 then PyFloat.inf else PyFloat.neginf)
  else if lowerBody = "nan".toList then some PyFloat.nan
  else (pyFloatNumber sgn body).map (fun q => PyFloat.finite q)

/-- Python `s.lower()` on ASCII input, as a char list. -/
def pyLower (s : String) : List Char := s.toList.map Char.toLower

/-- The boolean coercion used by every boolean field of the settings module:
`os.getenv(...).lower() == 'true'`. -/
def pyBool (s : String) : Bool := pyLower s == "true".toList

/-- Python `s.upper()` on ASCII input. -/
def pyUpper (s : String) : String := String.mk (s.toList.map Char.toUpper)

/-- Split a char list on literal commas, Python `str.split(',')` style:
no trimming, empty string gives one empty field. -/
def splitCommaChars : List Char → List (List Char)
  | [] => [[]]
  | c :: rest =>
    if c = ',' then [] :: splitCommaChars rest
    else
      match splitCommaChars rest with
      | [] => [[c]]
      | g :: gs => (c :: g) :: gs

/-- Python `s.split(',')`. -/
def pySplitComma (s : String) : List String :=
  (splitCommaChars s.toList).map String.mk

/-! ### The configuration records of `src/config/settings.py`

Each dataclass becomes a structure with the source's field names.  For
each class, a `...Fields` function evaluates the field-default
expressions of the class body, in declaration order, over a given
environment (this is where `os.getenv`, `int`, `float`, `.lower()`,
`.upper()` and `.split(',')` run); a `...Class` function then models the
dataclass decorator, which rejects the first field whose evaluated
default is a list (`ValueError: mutable default`). -/

/-- GNSS Receiver Configuration (`GNSSConfig`). -/
structure GNSSConfig where
  port : String
  baudrate : Int
  timeout : PyFloat
  protocol : String
  enable_rtcm : Bool
  enable_nmea : Bool
  ubx_rate : Int
  nav_rate : Int
  deriving DecidableEq, Repr

/-- Class-body evaluation of `GNSSConfig`'s field defaults. -/
def gnssConfigFields (env : Env) : Except PyErr GNSSConfig :=
  match pyInt (getenv env "GNSS_BAUDRATE" "9600") with
  | none => .error (.intParse (getenv env "GNSS_BAUDRATE" "9600"))
  | some baudrate =>
    match pyFloat (getenv env "GNSS_TIMEOUT" "1.0") with
    | none => .error (.floatParse (getenv env "GNSS_TIMEOUT" "1.0"))
    | some timeout =>
      match pyInt (getenv env "GNSS_UBX_RATE" "1") with
      | none => .error (.intParse (getenv env "GNSS_UBX_RATE" "1"))
      | some ubx_rate =>
        match pyInt (getenv env "GNSS_NAV_RATE" "1") with
        | none => .error (.intParse (getenv env "GNSS_NAV_RATE" "1"))
        | some nav_rate =>
          .ok { port := getenv env "GNSS_PORT" "/dev/ttyACM0"
                baudrate := baudrate
                timeout := timeout
                protocol := getenv env "GNSS_PROTOCOL" "UBX"
                enable_rtcm := pyBool (getenv env "GNSS_ENABLE_RTCM" "True")
                enable_nmea := pyBool (getenv env "GNSS_ENABLE_NMEA" "True")
                ubx_rate := ubx_rate
                nav_rate := nav_rate }

/-- Creation of the `GNSSConfig` dataclass: every default is hashable
(str, int, float, bool), so the decorator accepts the class. -/
def gnssConfigClass (env : Env) : Except PyErr GNSSConfig :=
  gnssConfigFields env

/-- Web Server Configuration (`WebConfig`). -/
structure WebConfig where
  host : String
  port : Int
  debug : Bool
  secret_key : String
  cors_origins : List String
  session_timeout : Int
  rate_limit : String
  deriving DecidableEq, Repr

/-- Class-body evaluation of `WebConfig`'s field defaults. -/
def webConfigFields (env : Env) : Except PyErr WebConfig :=
  match pyInt (getenv env "WEB_PORT" "5000") with
  | none => .error (.intParse (getenv env "WEB_PORT" "5000"))
  | some port =>
    match pyInt (getenv env "WEB_SESSION_TIMEOUT" "3600") with
    | none => .error (.intParse (getenv env "WEB_SESSION_TIMEOUT" "3600"))
    | some session_timeout =>
      .ok { host := getenv env "WEB_HOST" "0.0.0.0"
            port := port
            debug := pyBool (getenv env "WEB_DEBUG" "False")
            secret_key := getenv env "WEB_SECRET_KEY" "dev-secret-key-change-in-production"
            cors_origins := pySplitComma (getenv env "WEB_CORS_ORIGINS" "*")
            session_timeout := session_timeout
            rate_limit := getenv env "WEB_RATE_LIMIT" "100 per minute" }

/-- Creation of the `WebConfig` dataclass: the body evaluates first; if it
succeeds, the decorator walks the fields in order and rejects
`cors_origins`, whose evaluated default is the list produced by
`.split(',')` — Python raises ValueError (mutable default not allowed). -/
def webConfigClass (env : Env) : Except PyErr WebConfig :=
  match webConfigFields env with
  | .error e => .error e
  | .ok _ => .error (.mutableDefault "cors_origins")

/-- Map Configuration (`MapConfig`). -/
structure MapConfig where
  default_center : List PyFloat
  default_zoom : Int
  max_zoom : Int
  tile_provider : String
  tile_attribution : String
  satellite_layer : Bool
  satellite_url : String
  deriving DecidableEq, Repr

/-- Class-body evaluation of `MapConfig`'s field defaults (never fails:
no numeric coercion reads the environment here). -/
def mapConfigFields (env : Env) : MapConfig :=
  { default_center := [PyFloat.finite 0, PyFloat.finite 0]
    default_zoom := 2
    max_zoom := 18
    tile_provider := getenv env "MAP_TILE_PROVIDER"
      "https://{s}.tile.openstreetmap.org/{z}/{x}/{y}.png"
    tile_attribution := getenv env "MAP_TILE_ATTRIBUTION"
      "Â© <a href=\"https://www.openstreetmap.org/copyright\">OpenStreetMap</a> contributors"
    satellite_layer := pyBool (getenv env "MAP_SATELLITE_LAYER" "True")
    satellite_url := getenv env "MAP_SATELLITE_URL"
      "https://server.arcgisonline.com/ArcGIS/rest/services/World_Imagery/MapServer/tile/{z}/{y}/{x}" }

/-- Creation of the `MapConfig` dataclass: the decorator rejects the very
first field, `default_center`, whose default is the list `[0.0, 0.0]`. -/
def mapConfigClass (_env : Env) : Except PyErr MapConfig :=
  .error (.mutableDefault "default_center")

/-- Logging Configuration (`LoggingConfig`). -/
structure LoggingConfig where
  level : String
  format : String
  date_format : String
  file_enabled : Bool
  file_path : String
  max_file_size : Int
  backup_count : Int
  deriving DecidableEq, Repr

/-- Class-body evaluation of `LoggingConfig`'s field defaults. -/
def loggingConfigFields (env : Env) : Except PyErr LoggingConfig :=
  match pyInt (getenv env "LOG_MAX_FILE_SIZE" "10485760") with
  | none => .error (.intParse (getenv env "LOG_MAX_FILE_SIZE" "10485760"))
  | some max_file_size =>
    match pyInt (getenv env "LOG_BACKUP_COUNT" "5") with
    | none => .error (.intParse (getenv env "LOG_BACKUP_COUNT" "5"))
    | some backup_count =>
      .ok { level := pyUpper (getenv env "LOG_LEVEL" "INFO")
            format := "%(asctime)s - %(name)s - %(levelname)s - %(message)s"
            date_format := "%Y-%m-%d %H:%M:%S"
            file_enabled := pyBool (getenv env "LOG_FILE_ENABLED" "True")
            file_path := getenv env "LOG_FILE_PATH" "data/logs/gnss_viewer.log"
            max_file_size := max_file_size
            backup_count := backup_count }

/-- Creation of the `LoggingConfig` dataclass: all defaults hashable,
class accepted. -/
def loggingConfigClass (env : Env) : Except PyErr LoggingConfig :=
  loggingConfigFields env

/-- Data Configuration (`DataConfig`). -/
structure DataConfig where
  enable_logging : Bool
  log_directory : String
  export_directory : String
  max_history_points : Int
  export_formats : List String
  cache_enabled : Bool
  cache_ttl : Int
  deriving DecidableEq, Repr

/-- Class-body evaluation of `DataConfig`'s field defaults. -/
def dataConfigFields (env : Env) : Except PyErr DataConfig :=
  match pyInt (getenv env "DATA_MAX_HISTORY" "10000") with
  | none => .error (.intParse (getenv env "DATA_MAX_HISTORY" "10000"))
  | some max_history_points =>
    match pyInt (getenv env "DATA_CACHE_TTL" "300") with
    | none => .error (.intParse (getenv env "DATA_CACHE_TTL" "300"))
    | some cache_ttl =>
      .ok { enable_logging := pyBool (getenv env "DATA_ENABLE_LOGGING" "True")
            log_directory := getenv env "DATA_LOG_DIRECTORY" "data/logs"
            export_directory := getenv env "DATA_EXPORT_DIRECTORY" "data/exports"
            max_history_points := max_history_points
            export_formats := pySplitComma (getenv env "DATA_EXPORT_FORMATS" "csv,json,kml")
            cache_enabled := pyBool (getenv env "DATA_CACHE_ENABLED" "True")
            cache_ttl := cache_ttl }

/-- Creation of the `DataConfig` dataclass: if the body succeeds, the
decorator rejects `export_formats`, whose default is the list produced
by `.split(',')`. -/
def dataConfigClass (env : Env) : Except PyErr DataConfig :=
  match dataConfigFields env with
  | .error e => .error e
  | .ok _ => .error (.mutableDefault "export_formats")

/-! ### Satellite Systems Configuration -/

/-- Per-constellation metadata carried by the satellite registry. -/
structure SatSystem where
  enabled : Bool
  color : String
  priority : Nat
  description : String
  deriving DecidableEq, Repr

/-- The six constellations that `SatelliteConfig.__post_init__` installs
when no override is supplied, in the dict's insertion order. -/
def defaultSystems : List (String × SatSystem) :=
  [ ("GPS", { enabled := true, color := "#00ff88", priority := 1,
              description := "Global Positioning System (USA)" }),
    ("GLONASS", { enabled := true, color := "#ff4444", priority := 2,
                  description := "Global Navigation Satellite System (Russia)" }),
    ("Galileo", { enabled := true, color := "#4488ff", priority := 3,
                  description := "European Global Navigation Satellite System" }),
    ("BeiDou", { enabled := true, color := "#ffaa00", priority := 4,
                 description := "BeiDou Navigation Satellite System (China)" }),
    ("QZSS", { enabled := false, color := "#aa00ff", priority := 5,
               description := "Quasi-Zenith Satellite System (Japan)" }),
    ("SBAS", { enabled := false, color := "#ff00aa", priority := 6,
               description := "Satellite-Based Augmentation Systems" }) ]

/-- Satellite Systems Configuration (`SatelliteConfig`) after construction:
`systems` is never `None` once `__post_init__` has run. -/
structure SatelliteConfig where
  systems : List (String × SatSystem)
  deriving DecidableEq, Repr

/-- Constructing a `SatelliteConfig`: the dataclass generated constructor
stores the argument (default `None`), and `__post_init__` replaces a
`None` value with the fixed six-constellation dict. -/
def mkSatelliteConfig (systems : Option (List (String × SatSystem))) : SatelliteConfig :=
  { systems := systems.getD defaultSystems }

/-! ### The lookup tables of `src/config/constants.py`

Python dicts preserve insertion order, so each table is an association
list in the source's order; dict subscripting on a key that may be
absent is the Option-returning association lookup `dictLookup`. -/

/-- Association-list lookup modelling dict access with a possibly
missing key: an explicit `none`, never a silent placeholder. -/
def dictLookup {α β : Type} [BEq α] (t : List (α × β)) (k : α) : Option β :=
  (t.find? (fun p => p.1 == k)).map (fun p => p.2)

/-- Application version string. -/
def VERSION : String := "1.0.0"

/-- API version string. -/
def API_VERSION : String := "v1"

/-- NMEA fix-quality code table. -/
def GNSS_FIX_QUALITY : List (Nat × String) :=
  [ (0, "No Fix"), (1, "GPS Fix"), (2, "DGPS Fix"), (3, "PPS Fix"),
    (4, "RTK Fixed"), (5, "RTK Float"), (6, "DR"), (7, "Manual"),
    (8, "Simulation") ]

/-- Signal-quality code table. -/
def GNSS_SIGNAL_QUALITY : List (Nat × String) :=
  [ (0, "No Signal"), (1, "Searching"), (2, "Acquired"), (3, "Unusable"),
    (4, "Code Lock"), (5, "Code & Carrier Lock"),
    (6, "Code & Carrier Lock (Time)") ]

/-- UBX message-class table (protocol-class codes). -/
def UBX_CLASSES : List (Nat × String) :=
  [ (0x01, "NAV"), (0x02, "RXM"), (0x04, "INF"), (0x05, "ACK"),
    (0x06, "CFG"), (0x0A, "MON"), (0x0D, "TIM"), (0x10, "ESF"),
    (0x13, "MGA"), (0x21, "LOG"), (0x27, "SEC"), (0x28, "HNR") ]

/-- NMEA sentence-type description table. -/
def NMEA_SENTENCES : List (String × String) :=
  [ ("GGA", "Global Positioning System Fix Data"),
    ("GLL", "Geographic Position - Latitude/Longitude"),
    ("GSA", "GNSS DOP and Active Satellites"),
    ("GSV", "GNSS Satellites in View"),
    ("RMC", "Recommended Minimum Specific GNSS Data"),
    ("VTG", "Course Over Ground and Ground Speed"),
    ("ZDA", "Time & Date"),
    ("PUBX", "u-blox Proprietary") ]

/-- Error-code table. -/
def ERROR_CODES : List (String × String) :=
  [ ("GNSS001", "GNSS receiver not connected"),
    ("GNSS002", "Invalid NMEA sentence"),
    ("GNSS003", "Serial port error"),
    ("WEB001", "Invalid API request"),
    ("WEB002", "Resource not found"),
    ("WEB003", "Rate limit exceeded"),
    ("SYS001", "System configuration error"),
    ("SYS002", "Database connection failed") ]

/-- Status-message table. -/
def STATUS_MESSAGES : List (String × String) :=
  [ ("CONNECTING", "Connecting to GNSS receiver..."),
    ("CONNECTED", "GNSS receiver connected"),
    ("DISCONNECTED", "GNSS receiver disconnected"),
    ("NO_FIX", "No satellite fix"),
    ("2D_FIX", "2D fix acquired"),
    ("3D_FIX", "3D fix acquired"),
    ("RTK_FLOAT", "RTK float solution"),
    ("RTK_FIXED", "RTK fixed solution") ]

/-- UI color-token table. -/
def COLORS : List (String × String) :=
  [ ("primary", "#0066cc"), ("secondary", "#00cc66"), ("accent", "#ff9900"),
    ("danger", "#ff4444"), ("warning", "#ffaa00"), ("info", "#00aaff"),
    ("success", "#00cc88"), ("dark", "#1a1a2e"), ("light", "#f8f9fa") ]

/-- One API-response envelope template. -/
structure ApiTemplate where
  status : String
  code : Int
  deriving DecidableEq, Repr

/-- API response templates. -/
def API_RESPONSE : List (String × ApiTemplate) :=
  [ ("success", { status := "success", code := 200 }),
    ("error", { status := "error", code := 400 }) ]

/-! ### Module-level state and the import of `settings.py` -/

/-- One handler attached to the root logger by `setup_logging`. -/
structure Handler where
  isFile : Bool
  fmt : String
  datefmt : String
  filePath : String
  maxBytes : Int
  backupCount : Int
  deriving DecidableEq, Repr

/-- The process-wide state the two modules establish: the six
configuration instances, the constants tables, and the root logger's
handlers and level (touched only by `setup_logging`). -/
structure ModuleState where
  gnss_config : GNSSConfig
  web_config : WebConfig
  map_config : MapConfig
  logging_config : LoggingConfig
  data_config : DataConfig
  satellite_config : SatelliteConfig
  fixQuality : List (Nat × String)
  signalQuality : List (Nat × String)
  ubxClasses : List (Nat × String)
  nmeaSentences : List (String × String)
  errorCodes : List (String × String)
  statusMessages : List (String × String)
  colors : List (String × String)
  apiResponse : List (String × ApiTemplate)
  handlers : List Handler
  loggerLevel : String
  deriving DecidableEq, Repr

/-- Importing `settings.py`: the dataclasses are created top to bottom
(GNSS, Web, Map, Logging, Data, Satellite), then the module-level
instances are constructed.  The first error aborts the import. -/
def moduleLoad (env : Env) : Except PyErr ModuleState :=
  match gnssConfigClass env with
  | .error e => .error e
  | .ok g =>
    match webConfigClass env with
    | .error e => .error e
    | .ok w =>
      match mapConfigClass env with
      | .error e => .error e
      | .ok m =>
        match loggingConfigClass env with
        | .error e => .error e
        | .ok l =>
          match dataConfigClass env with
          | .error e => .error e
          | .ok d =>
            .ok { gnss_config := g
                  web_config := w
                  map_config := m
                  logging_config := l
                  data_config := d
                  satellite_config := mkSatelliteConfig none
                  fixQuality := GNSS_FIX_QUALITY
                  signalQuality := GNSS_SIGNAL_QUALITY
                  ubxClasses := UBX_CLASSES
                  nmeaSentences := NMEA_SENTENCES
                  errorCodes := ERROR_CODES
                  statusMessages := STATUS_MESSAGES
                  colors := COLORS
                  apiResponse := API_RESPONSE
                  handlers := []
                  loggerLevel := "WARNING" }

/-- The one post-load operation the visible code defines,
`setup_logging()`: it sets the root logger's level from
`logging_config.level`, attaches a console handler, and, when file
logging is enabled, a rotating file handler.  It reads the
configuration records and writes only the logger. -/
def setup_logging (st : ModuleState) : ModuleState :=
  let lc := st.logging_config
  let console : Handler :=
    { isFile := false, fmt := lc.format, datefmt := lc.date_format,
      filePath := "", maxBytes := 0, backupCount := 0 }
  let st1 := { st with loggerLevel := lc.level,
                       handlers := st.handlers ++ [console] }
  if lc.file_enabled then
    { st1 with handlers := st1.handlers ++
        [ { isFile := true, fmt := lc.format, datefmt := lc.date_format,
            filePath := lc.file_path, maxBytes := lc.max_file_size,
            backupCount := lc.backup_count } ] }
  else st1

/-! ### Concrete environment snapshots used in the theorems below -/

/-- The empty environment: every variable unset. -/
def emptyEnv : Env := fun _ => none

/-- Environment where only GNSS_BAUDRATE is set, to a non-numeric string. -/
def envBadBaud : Env :=
  fun v => if v = "GNSS_BAUDRATE" then some "abc" else none

/-- Environment where only WEB_CORS_ORIGINS is set, to a plain list. -/
def envCors : Env :=
  fun v => if v = "WEB_CORS_ORIGINS" then some "a,b,c" else none

/-- Environment where only WEB_CORS_ORIGINS is set, with inner whitespace. -/
def envCorsSpace : Env :=
  fun v => if v = "WEB_CORS_ORIGINS" then some "a, b" else none

/-- Environment where only GNSS_ENABLE_RTCM is set, to "TRUE". -/
def envRtcm : Env :=
  fun v => if v = "GNSS_ENABLE_RTCM" then some "TRUE" else none

/-! ### Helper lemmas: inversion of successful class-body evaluation -/

/-- If the GNSS class body evaluates to a record, its boolean fields are
the documented coercions of their environment variables. -/
theorem gnssConfigFields_ok_bools {env : Env} {c : GNSSConfig}
    (h : gnssConfigFields env = Except.ok c) :
    c.enable_rtcm = pyBool (getenv env "GNSS_ENABLE_RTCM" "True") ∧
    c.enable_nmea = pyBool (getenv env "GNSS_ENABLE_NMEA" "True") := by
  unfold gnssConfigFields at h
  cases hb : pyInt (getenv env "GNSS_BAUDRATE" "9600") <;> rw [hb] at h
  · exact Except.noConfusion h
  · cases ht : pyFloat (getenv env "GNSS_TIMEOUT" "1.0") <;> rw [ht] at h
    · exact Except.noConfusion h
    · cases hu : pyInt (getenv env "GNSS_UBX_RATE" "1") <;> rw [hu] at h
      · exact Except.noConfusion h
      · cases hn : pyInt (getenv env "GNSS_NAV_RATE" "1") <;> rw [hn] at h
        · exact Except.noConfusion h
        · injection h with h
          subst h
          exact ⟨rfl, rfl⟩

/-- If the Web class body evaluates to a record, its debug flag and CORS
list are the documented coercions of their environment variables. -/
theorem webConfigFields_ok_inv {env : Env} {c : WebConfig}
    (h : webConfigFields env = Except.ok c) :
    c.debug = pyBool (getenv env "WEB_DEBUG" "False") ∧
    c.cors_origins = pySplitComma (getenv env "WEB_CORS_ORIGINS" "*") := by
  unfold webConfigFields at h
  cases hp : pyInt (getenv env "WEB_PORT" "5000") <;> rw [hp] at h
  · exact Except.noConfusion h
  · cases hs : pyInt (getenv env "WEB_SESSION_TIMEOUT" "3600") <;> rw [hs] at h
    · exact Except.noConfusion h
    · injection h with h
      subst h
      exact ⟨rfl, rfl⟩

/-- If the Logging class body evaluates to a record, its file_enabled flag
is the documented coercion of LOG_FILE_ENABLED. -/
theorem loggingConfigFields_ok_bool {env : Env} {c : LoggingConfig}
    (h : loggingConfigFields env = Except.ok c) :
    c.file_enabled = pyBool (getenv env "LOG_FILE_ENABLED" "True") := by
  unfold loggingConfigFields at h
  cases hm : pyInt (getenv env "LOG_MAX_FILE_SIZE" "10485760") <;> rw [hm] at h
  · exact Except.noConfusion h
  · cases hb : pyInt (getenv env "LOG_BACKUP_COUNT" "5") <;> rw [hb] at h
    · exact Except.noConfusion h
    · injection h with h
      subst h
      exact rfl

/-- If the Data class body evaluates to a record, its boolean fields are
the documented coercions of their environment variables. -/
theorem dataConfigFields_ok_bools {env : Env} {c : DataConfig}
    (h : dataConfigFields env = Except.ok c) :
    c.enable_logging = pyBool (getenv env "DATA_ENABLE_LOGGING" "True") ∧
    c.cache_enabled = pyBool (getenv env "DATA_CACHE_ENABLED" "True") := by
  unfold dataConfigFields at h
  cases hh : pyInt (getenv env "DATA_MAX_HISTORY" "10000") <;> rw [hh] at h
  · exact Except.noConfusion h
  · cases ht : pyInt (getenv env "DATA_CACHE_TTL" "300") <;> rw [ht] at h
    · exact Except.noConfusion h
    · injection h with h
      subst h
      exact ⟨rfl, rfl⟩

/-- The WebConfig dataclass is never created: the decorator always rejects
the list-valued default of `cors_origins`. -/
theorem webConfigClass_never_ok (env : Env) (c : WebConfig) :
    webConfigClass env ≠ Except.ok c := by
  intro h
  unfold webConfigClass at h
  cases hw : webConfigFields env <;> rw [hw] at h <;> exact Except.noConfusion h

/-- Importing the settings module never yields a loaded state: the import
aborts at WebConfig class creation at the latest. -/
theorem moduleLoad_never_ok (env : Env) (st : ModuleState) :
    moduleLoad env ≠ Except.ok st := by
  intro h
  unfold moduleLoad at h
  cases hg : gnssConfigClass env <;> rw [hg] at h
  · exact Except.noConfusion h
  · cases hw : webConfigClass env <;> rw [hw] at h
    · exact Except.noConfusion h
    · exact webConfigClass_never_ok env _ hw

/-! ### Claim theorems -/

/-- C5: constructed with no explicit override (`systems is None`), the
satellite registry self-populates with exactly six entries keyed GPS,
GLONASS, Galileo, BeiDou, QZSS, SBAS (in that order), each carrying an
enabled flag, color, priority and description; GPS has enabled = true and
priority = 1, QZSS has enabled = false and priority = 5. -/
theorem satellite_default_registry :
    (mkSatelliteConfig none).systems.map Prod.fst =
      ["GPS", "GLONASS", "Galileo", "BeiDou", "QZSS", "SBAS"] ∧
    (mkSatelliteConfig none).systems.length = 6 ∧
    dictLookup (mkSatelliteConfig none).systems "GPS" =
      some { enabled := true, color := "#00ff88", priority := 1,
             description := "Global Positioning System (USA)" } ∧
    dictLookup (mkSatelliteConfig none).systems "QZSS" =
      some { enabled := false, color := "#aa00ff", priority := 5,
             description := "Quasi-Zenith Satellite System (Japan)" } :=
  ⟨rfl, rfl, rfl, rfl⟩

/-- C6 counterexample: the claim says the protocol-class code table has
8 entries; `UBX_CLASSES` in `src/config/constants.py` has 12 (NAV, RXM,
INF, ACK, CFG, MON, TIM, ESF, MGA, LOG, SEC, HNR), so the claimed
conjunction of table sizes is false. -/
theorem ubx_classes_not_eight :
    UBX_CLASSES.length = 12 ∧ ¬ UBX_CLASSES.length = 8 := by
  exact ⟨rfl, by decide⟩

/-- C6 amended: the static tables have the stated sizes, except that the
protocol-class (UBX message class) table has 12 entries, not 8: the
fix-quality table has keys 0 through 8, the signal-quality table keys 0
through 6, the sentence-type, error-code and status-message tables 8
entries each, and the UI color-token table 9 entries. -/
theorem constants_table_sizes :
    GNSS_FIX_QUALITY.map Prod.fst = [0, 1, 2, 3, 4, 5, 6, 7, 8] ∧
    GNSS_SIGNAL_QUALITY.map Prod.fst = [0, 1, 2, 3, 4, 5, 6] ∧
    UBX_CLASSES.length = 12 ∧
    NMEA_SENTENCES.length = 8 ∧
    ERROR_CODES.length = 8 ∧
    STATUS_MESSAGES.length = 8 ∧
    COLORS.length = 9 :=
  ⟨rfl, rfl, rfl, rfl, rfl, rfl, rfl⟩

/-- C7: looking up fix-quality code 4 returns "RTK Fixed", and looking up
a code with no entry (99) returns an explicit `none`, never a silently
substituted placeholder. -/
theorem fix_quality_lookup :
    dictLookup GNSS_FIX_QUALITY 4 = some "RTK Fixed" ∧
    dictLookup GNSS_FIX_QUALITY 99 = none :=
  ⟨rfl, rfl⟩

/-- C10 (code bug): the map record is claimed to carry default_center =
[0.0, 0.0], default_zoom = 2 and max_zoom = 18 in every environment.  The
class body does evaluate those three literals, but the dataclass
decorator then rejects `default_center` — a list default — with
ValueError, so no MapConfig record is ever constructed. -/
theorem map_config_class_rejected : ∀ env : Env,
    mapConfigClass env = Except.error (PyErr.mutableDefault "default_center") ∧
    (mapConfigFields env).default_center = [PyFloat.finite 0, PyFloat.finite 0] ∧
    (mapConfigFields env).default_zoom = 2 ∧
    (mapConfigFields env).max_zoom = 18 :=
  fun _ => ⟨rfl, rfl, rfl, rfl⟩

/-- C1 (code bug): with every documented variable unset, the class bodies
do evaluate each field to the literal default from the spec's table
(port "/dev/ttyACM0", baudrate 9600, timeout 1.0, web port 5000, CORS
["*"], log level "INFO", cache TTL 300, and so on) — but the assembled
configuration records never come to exist, because importing the module
raises ValueError at WebConfig class creation: the evaluated default of
`cors_origins` is a list, which the dataclass decorator rejects as a
mutable default. -/
theorem defaults_evaluated_but_import_rejected :
    gnssConfigClass emptyEnv = Except.ok
      { port := "/dev/ttyACM0", baudrate := 9600, timeout := PyFloat.finite 1,
        protocol := "UBX", enable_rtcm := true, enable_nmea := true,
        ubx_rate := 1, nav_rate := 1 } ∧
    webConfigFields emptyEnv = Except.ok
      { host := "0.0.0.0", port := 5000, debug := false,
        secret_key := "dev-secret-key-change-in-production",
        cors_origins := ["*"], session_timeout := 3600,
        rate_limit := "100 per minute" } ∧
    mapConfigFields emptyEnv =
      { default_center := [PyFloat.finite 0, PyFloat.finite 0],
        default_zoom := 2, max_zoom := 18,
        tile_provider := "https://{s}.tile.openstreetmap.org/{z}/{x}/{y}.png",
        tile_attribution := "Â© <a href=\"https://www.openstreetmap.org/copyright\">OpenStreetMap</a> contributors",
        satellite_layer := true,
        satellite_url := "https://server.arcgisonline.com/ArcGIS/rest/services/World_Imagery/MapServer/tile/{z}/{y}/{x}" } ∧
    loggingConfigClass emptyEnv = Except.ok
      { level := "INFO",
        format := "%(asctime)s - %(name)s - %(levelname)s - %(message)s",
        date_format := "%Y-%m-%d %H:%M:%S", file_enabled := true,
        file_path := "data/logs/gnss_viewer.log",
        max_file_size := 10485760, backup_count := 5 } ∧
    dataConfigFields emptyEnv = Except.ok
      { enable_logging := true, log_directory := "data/logs",
        export_directory := "data/exports", max_history_points := 10000,
        export_formats := ["csv", "json", "kml"], cache_enabled := true,
        cache_ttl := 300 } ∧
    moduleLoad emptyEnv = Except.error (PyErr.mutableDefault "cors_origins") :=
  ⟨rfl, rfl, rfl, rfl, rfl, rfl⟩

/-- C4 (code bug): the split expression behaves exactly as claimed —
"a,b,c" gives ["a","b","c"], "a, b" gives ["a"," b"] with no trimming,
and the unset default "*" gives ["*"] — but the WebConfig record that
would carry the `cors_origins` field is never created: the dataclass
decorator rejects its list-valued default with ValueError, aborting the
import. -/
theorem cors_split_but_class_rejected :
    (webConfigFields envCors).map WebConfig.cors_origins =
      Except.ok ["a", "b", "c"] ∧
    (webConfigFields envCorsSpace).map WebConfig.cors_origins =
      Except.ok ["a", " b"] ∧
    (webConfigFields emptyEnv).map WebConfig.cors_origins =
      Except.ok ["*"] ∧
    webConfigClass envCors = Except.error (PyErr.mutableDefault "cors_origins") ∧
    moduleLoad envCors = Except.error (PyErr.mutableDefault "cors_origins") :=
  ⟨rfl, rfl, rfl, rfl, rfl⟩

/-- C3: for every boolean-typed configuration field, the coerced value is
true exactly when the environment string, lowercased, equals "true"; in
particular "True", "TRUE", "true" coerce to true and "1", "yes",
"false", "0", "no" coerce to false. -/
theorem bool_coercion_lower_true :
    (∀ (env : Env) (c : GNSSConfig), gnssConfigFields env = Except.ok c →
      ∀ s, env "GNSS_ENABLE_RTCM" = some s →
        (c.enable_rtcm = true ↔ pyLower s = "true".toList)) ∧
    (∀ (env : Env) (c : GNSSConfig), gnssConfigFields env = Except.ok c →
      ∀ s, env "GNSS_ENABLE_NMEA" = some s →
        (c.enable_nmea = true ↔ pyLower s = "true".toList)) ∧
    (∀ (env : Env) (c : WebConfig), webConfigFields env = Except.ok c →
      ∀ s, env "WEB_DEBUG" = some s →
        (c.debug = true ↔ pyLower s = "true".toList)) ∧
    (∀ (env : Env) (s : String), env "MAP_SATELLITE_LAYER" = some s →
      ((mapConfigFields env).satellite_layer = true ↔ pyLower s = "true".toList)) ∧
    (∀ (env : Env) (c : LoggingConfig), loggingConfigFields env = Except.ok c →
      ∀ s, env "LOG_FILE_ENABLED" = some s →
        (c.file_enabled = true ↔ pyLower s = "true".toList)) ∧
    (∀ (env : Env) (c : DataConfig), dataConfigFields env = Except.ok c →
      ∀ s, env "DATA_ENABLE_LOGGING" = some s →
        (c.enable_logging = true ↔ pyLower s = "true".toList)) ∧
    (∀ (env : Env) (c : DataConfig), dataConfigFields env = Except.ok c →
      ∀ s, env "DATA_CACHE_ENABLED" = some s →
        (c.cache_enabled = true ↔ pyLower s = "true".toList)) ∧
    (pyBool "True" = true ∧ pyBool "TRUE" = true ∧ pyBool "true" = true ∧
     pyBool "1" = false ∧ pyBool "yes" = false ∧ pyBool "false" = false ∧
     pyBool "0" = false ∧ pyBool "no" = false) := by
  refine ⟨?_, ?_, ?_, ?_, ?_, ?_, ?_, ?_⟩
  · intro env c hok s hs
    rw [(gnssConfigFields_ok_bools hok).1]
    simp [getenv, hs, pyBool]
  · intro env c hok s hs
    rw [(gnssConfigFields_ok_bools hok).2]
    simp [getenv, hs, pyBool]
  · intro env c hok s hs
    rw [(webConfigFields_ok_inv hok).1]
    simp [getenv, hs, pyBool]
  · intro env s hs
    show pyBool (getenv env "MAP_SATELLITE_LAYER" "True") = true ↔ _
    simp [getenv, hs, pyBool]
  · intro env c hok s hs
    rw [loggingConfigFields_ok_bool hok]
    simp [getenv, hs, pyBool]
  · intro env c hok s hs
    rw [(dataConfigFields_ok_bools hok).1]
    simp [getenv, hs, pyBool]
  · intro env c hok s hs
    rw [(dataConfigFields_ok_bools hok).2]
    simp [getenv, hs, pyBool]
  · exact ⟨rfl, rfl, rfl, rfl, rfl, rfl, rfl, rfl⟩

/-- The GNSS record that the class body produces in the witness
environment where only GNSS_ENABLE_RTCM is set (to "TRUE"). -/
def gnssRecordRtcm : GNSSConfig :=
  { port := "/dev/ttyACM0", baudrate := 9600, timeout := PyFloat.finite 1,
    protocol := "UBX", enable_rtcm := true, enable_nmea := true,
    ubx_rate := 1, nav_rate := 1 }

/-- Witness for C3 at the concrete environment `envRtcm`. -/
theorem bool_coercion_lower_true_witness :
    gnssRecordRtcm.enable_rtcm = true ↔ pyLower "TRUE" = "true".toList :=
  bool_coercion_lower_true.1 envRtcm gnssRecordRtcm rfl "TRUE" rfl

/-- C2: if any integer- or float-typed variable is present but does not
parse, configuration assembly fails at startup with a coercion error
rather than silently falling back to the default, and no configuration
record is produced.  For the first fallible field of each class body the
error is exactly the parse error for the offending string; for later
fields some parse error (possibly an earlier field's) aborts the body;
and the module import never yields a loaded state. -/
theorem numeric_parse_fail_fast : ∀ env : Env,
    (∀ s, env "GNSS_BAUDRATE" = some s → pyInt s = none →
      gnssConfigClass env = Except.error (PyErr.intParse s) ∧
      moduleLoad env = Except.error (PyErr.intParse s)) ∧
    (∀ s, env "GNSS_TIMEOUT" = some s → pyFloat s = none →
      ∃ e, gnssConfigClass env = Except.error e ∧ e.isParseError = true) ∧
    (∀ s, env "GNSS_UBX_RATE" = some s → pyInt s = none →
      ∃ e, gnssConfigClass env = Except.error e ∧ e.isParseError = true) ∧
    (∀ s, env "GNSS_NAV_RATE" = some s → pyInt s = none →
      ∃ e, gnssConfigClass env = Except.error e ∧ e.isParseError = true) ∧
    (∀ s, env "WEB_PORT" = some s → pyInt s = none →
      webConfigFields env = Except.error (PyErr.intParse s) ∧
      webConfigClass env = Except.error (PyErr.intParse s)) ∧
    (∀ s, env "WEB_SESSION_TIMEOUT" = some s → pyInt s = none →
      ∃ e, webConfigClass env = Except.error e ∧ e.isParseError = true) ∧
    (∀ s, env "LOG_MAX_FILE_SIZE" = some s → pyInt s = none →
      loggingConfigClass env = Except.error (PyErr.intParse s)) ∧
    (∀ s, env "LOG_BACKUP_COUNT" = some s → pyInt s = none →
      ∃ e, loggingConfigClass env = Except.error e ∧ e.isParseError = true) ∧
    (∀ s, env "DATA_MAX_HISTORY" = some s → pyInt s = none →
      dataConfigFields env = Except.error (PyErr.intParse s) ∧
      dataConfigClass env = Except.error (PyErr.intParse s)) ∧
    (∀ s, env "DATA_CACHE_TTL" = some s → pyInt s = none →
      ∃ e, dataConfigClass env = Except.error e ∧ e.isParseError = true) ∧
    (∀ st, moduleLoad env ≠ Except.ok st) := by
  intro env
  refine ⟨?_, ?_, ?_, ?_, ?_, ?_, ?_, ?_, ?_, ?_, moduleLoad_never_ok env⟩
  · intro s hs hp
    have h1 : gnssConfigClass env = Except.error (PyErr.intParse s) := by
      unfold gnssConfigClass gnssConfigFields
      simp [getenv, hs, hp]
    refine ⟨h1, ?_⟩
    unfold moduleLoad
    rw [h1]
  · intro s hs hp
    unfold gnssConfigClass gnssConfigFields
    cases hb : pyInt (getenv env "GNSS_BAUDRATE" "9600") with
    | none => exact ⟨PyErr.intParse (getenv env "GNSS_BAUDRATE" "9600"), rfl, rfl⟩
    | some b =>
      refine ⟨PyErr.floatParse s, ?_, rfl⟩
      simp [getenv, hs, hp]
  · intro s hs hp
    unfold gnssConfigClass gnssConfigFields
    cases hb : pyInt (getenv env "GNSS_BAUDRATE" "9600") with
    | none => exact ⟨PyErr.intParse (getenv env "GNSS_BAUDRATE" "9600"), rfl, rfl⟩
    | some b =>
      cases ht : pyFloat (getenv env "GNSS_TIMEOUT" "1.0") with
      | none => exact ⟨PyErr.floatParse (getenv env "GNSS_TIMEOUT" "1.0"), rfl, rfl⟩
      | some t =>
        refine ⟨PyErr.intParse s, ?_, rfl⟩
        simp [getenv, hs, hp]
  · intro s hs hp
    unfold gnssConfigClass gnssConfigFields
    cases hb : pyInt (getenv env "GNSS_BAUDRATE" "9600") with
    | none => exact ⟨PyErr.intParse (getenv env "GNSS_BAUDRATE" "9600"), rfl, rfl⟩
    | some b =>
      cases ht : pyFloat (getenv env "GNSS_TIMEOUT" "1.0") with
      | none => exact ⟨PyErr.floatParse (getenv env "GNSS_TIMEOUT" "1.0"), rfl, rfl⟩
      | some t =>
        cases hu : pyInt (getenv env "GNSS_UBX_RATE" "1") with
        | none => exact ⟨PyErr.intParse (getenv env "GNSS_UBX_RATE" "1"), rfl, rfl⟩
        | some u =>
          refine ⟨PyErr.intParse s, ?_, rfl⟩
          simp [getenv, hs, hp]
  · intro s hs hp
    have h1 : webConfigFields env = Except.error (PyErr.intParse s) := by
      unfold webConfigFields
      simp [getenv, hs, hp]
    refine ⟨h1, ?_⟩
    unfold webConfigClass
    rw [h1]
  · intro s hs hp
    unfold webConfigClass webConfigFields
    cases hw : pyInt (getenv env "WEB_PORT" "5000") with
    | none => exact ⟨PyErr.intParse (getenv env "WEB_PORT" "5000"), rfl, rfl⟩
    | some p =>
      refine ⟨PyErr.intParse s, ?_, rfl⟩
      simp [getenv, hs, hp]
  · intro s hs hp
    unfold loggingConfigClass loggingConfigFields
    simp [getenv, hs, hp]
  · intro s hs hp
    unfold loggingConfigClass loggingConfigFields
    cases hm : pyInt (getenv env "LOG_MAX_FILE_SIZE" "10485760") with
    | none => exact ⟨PyErr.intParse (getenv env "LOG_MAX_FILE_SIZE" "10485760"), rfl, rfl⟩
    | some m =>
      refine ⟨PyErr.intParse s, ?_, rfl⟩
      simp [getenv, hs, hp]
  · intro s hs hp
    have h1 : dataConfigFields env = Except.error (PyErr.intParse s) := by
      unfold dataConfigFields
      simp [getenv, hs, hp]
    refine ⟨h1, ?_⟩
    unfold dataConfigClass
    rw [h1]
  · intro s hs hp
    unfold dataConfigClass dataConfigFields
    cases hh : pyInt (getenv env "DATA_MAX_HISTORY" "10000") with
    | none => exact ⟨PyErr.intParse (getenv env "DATA_MAX_HISTORY" "10000"), rfl, rfl⟩
    | some m =>
      refine ⟨PyErr.intParse s, ?_, rfl⟩
      simp [getenv, hs, hp]

/-- Witness for C2 at the concrete environment `envBadBaud` where
GNSS_BAUDRATE is the non-numeric string "abc". -/
theorem numeric_parse_fail_fast_witness :
    gnssConfigClass envBadBaud = Except.error (PyErr.intParse "abc") ∧
    moduleLoad envBadBaud = Except.error (PyErr.intParse "abc") :=
  (numeric_parse_fail_fast envBadBaud).1 "abc" rfl rfl

/-- C8: configuration assembly is deterministic — two assemblies from the
same environment snapshot (two snapshots that agree on every variable)
produce identical outcomes, for the module import as a whole and for each
class individually, hence field-for-field identical records whenever
records are produced. -/
theorem assembly_deterministic : ∀ env₁ env₂ : Env,
    (∀ v, env₁ v = env₂ v) →
    moduleLoad env₁ = moduleLoad env₂ ∧
    gnssConfigClass env₁ = gnssConfigClass env₂ ∧
    webConfigClass env₁ = webConfigClass env₂ ∧
    mapConfigFields env₁ = mapConfigFields env₂ ∧
    loggingConfigClass env₁ = loggingConfigClass env₂ ∧
    dataConfigClass env₁ = dataConfigClass env₂ := by
  intro env₁ env₂ h
  have he : env₁ = env₂ := funext h
  subst he
  exact ⟨rfl, rfl, rfl, rfl, rfl, rfl⟩

/-- Witness for C8 at the concrete snapshot `emptyEnv` taken twice. -/
theorem assembly_deterministic_witness :
    moduleLoad emptyEnv = moduleLoad emptyEnv ∧
    gnssConfigClass emptyEnv = gnssConfigClass emptyEnv ∧
    webConfigClass emptyEnv = webConfigClass emptyEnv ∧
    mapConfigFields emptyEnv = mapConfigFields emptyEnv ∧
    loggingConfigClass emptyEnv = loggingConfigClass emptyEnv ∧
    dataConfigClass emptyEnv = dataConfigClass emptyEnv :=
  assembly_deterministic emptyEnv emptyEnv (fun _ => rfl)

/-- C9: no operation in the visible code mutates a constants table or a
configuration record after construction: `setup_logging`, the only
post-load operation, leaves every configuration record and every
constants table of the module state unchanged (it only touches the
logger), and the satellite registry's self-population happens only in
its constructor — an explicit override is stored untouched. -/
theorem no_mutation_after_load : ∀ st : ModuleState,
    ((setup_logging st).gnss_config = st.gnss_config ∧
     (setup_logging st).web_config = st.web_config ∧
     (setup_logging st).map_config = st.map_config ∧
     (setup_logging st).logging_config = st.logging_config ∧
     (setup_logging st).data_config = st.data_config ∧
     (setup_logging st).satellite_config = st.satellite_config) ∧
    ((setup_logging st).fixQuality = st.fixQuality ∧
     (setup_logging st).signalQuality = st.signalQuality ∧
     (setup_logging st).ubxClasses = st.ubxClasses ∧
     (setup_logging st).nmeaSentences = st.nmeaSentences ∧
     (setup_logging st).errorCodes = st.errorCodes ∧
     (setup_logging st).statusMessages = st.statusMessages ∧
     (setup_logging st).colors = st.colors ∧
     (setup_logging st).apiResponse = st.apiResponse) ∧
    (∀ sys, (mkSatelliteConfig (some sys)).systems = sys) := by
  intro st
  unfold setup_logging
  cases hf : st.logging_config.file_enabled <;>
    simp [hf, mkSatelliteConfig]
